import Mathlib

/-!
Verification of the carousel view-state controller of the SliderR3F
repository.  The controller lives in `src/src/Scene.jsx` (and a duplicate
copy in `src/unnamed/part_000`): a React component holding three pieces of
state — `currentModelIndex` (the spec's `activeIndex`), `isLoading` (the
negation of the spec's `isAssetReady`) and `key` (the spec's `generation`)
— mutated by the handlers `handleModelLoad`, `nextModel`, `previousModel`
and `selectModel`.  The spec names these operations `notifyAssetLoaded`,
`selectNext`, `selectPrevious` and `selectIndex`.

JavaScript's `%` on integer-valued numbers is the truncated remainder, so
it is embedded as `Int.tmod`.
-/

/-- An entry of the `models` array: name, asset path and initial camera
position (three numeric literals, embedded as exact rationals). -/
structure CatalogEntry where
  name : String
  path : String
  cameraPosition : ℚ × ℚ × ℚ
  deriving DecidableEq

/-- The reactive state of the `Scene` component: `currentModelIndex`
(spec: `activeIndex`), `isLoading` (spec: negation of `isAssetReady`) and
`key` (spec: `generation`). -/
structure ViewerState where
  currentModelIndex : Int
  isLoading : Bool
  key : Nat
  deriving DecidableEq

/-- Spec vocabulary: `activeIndex` is the source's `currentModelIndex`. -/
def ViewerState.activeIndex (s : ViewerState) : Int :=
  s.currentModelIndex

/-- Spec vocabulary: `isAssetReady` is the negation of the source's
`isLoading` flag. -/
def ViewerState.isAssetReady (s : ViewerState) : Bool :=
  !s.isLoading

/-- Spec vocabulary: `generation` is the source's `key` counter. -/
def ViewerState.generation (s : ViewerState) : Nat :=
  s.key

namespace Scene

/-- The `models` array of `src/src/Scene.jsx`, lines 8-34. -/
def models : List CatalogEntry :=
  [⟨"Laptop", "../laptop.glb", (0, 0.5, 0.5)⟩,
   ⟨"Drone", "../drone.glb", (0, 0.1, 0.3)⟩,
   ⟨"Headset", "../headset1.glb", (0, 0, 40)⟩,
   ⟨"Wooden Box", "../wooden_box.glb", (0, 2, 5)⟩,
   ⟨"VR", "../vr.glb", (0, 0, 2.5)⟩]

/-- The mount state of `Scene` (`src/src/Scene.jsx`, lines 101-103):
`useState(0)`, `useState(true)`, `useState(0)`. -/
def initialState : ViewerState :=
  ⟨0, true, 0⟩

/-- `handleModelLoad` (`src/src/Scene.jsx`, lines 105-107): sets
`isLoading` to `false`. -/
def handleModelLoad (s : ViewerState) : ViewerState :=
  { s with isLoading := false }

/-- `nextModel` (`src/src/Scene.jsx`, lines 109-115). -/
def nextModel (s : ViewerState) : ViewerState :=
  if !s.isLoading then
    { s with
      isLoading := true
      currentModelIndex := (s.currentModelIndex + 1).tmod (models.length : Int)
      key := s.key + 1 }
  else s

/-- `previousModel` (`src/src/Scene.jsx`, lines 117-125). -/
def previousModel (s : ViewerState) : ViewerState :=
  if !s.isLoading then
    { s with
      isLoading := true
      currentModelIndex :=
        (s.currentModelIndex - 1 + (models.length : Int)).tmod (models.length : Int)
      key := s.key + 1 }
  else s

/-- `selectModel` (`src/src/Scene.jsx`, lines 127-133). -/
def selectModel (index : Int) (s : ViewerState) : ViewerState :=
  if !s.isLoading && index != s.currentModelIndex then
    { s with
      isLoading := true
      currentModelIndex := index
      key := s.key + 1 }
  else s

/-- Spec name for `nextModel`. -/
def selectNext : ViewerState → ViewerState :=
  nextModel

/-- Spec name for `previousModel`. -/
def selectPrevious : ViewerState → ViewerState :=
  previousModel

/-- Spec name for `selectModel`. -/
def selectIndex : Int → ViewerState → ViewerState :=
  selectModel

/-- Spec name for `handleModelLoad`. -/
def notifyAssetLoaded : ViewerState → ViewerState :=
  handleModelLoad

/-- The operations a client (the presentation layer and the renderer
callback) can invoke on the controller. -/
inductive Action where
  | next
  | prev
  | select (i : Int)
  | loaded
  deriving DecidableEq

/-- One controller transition. -/
def step : Action → ViewerState → ViewerState
  | .next, s => nextModel s
  | .prev, s => previousModel s
  | .select i, s => selectModel i s
  | .loaded, s => handleModelLoad s

/-- Whether an action's guard passes (the spec's "accepted transition"):
the guard conditions of `nextModel`, `previousModel` and `selectModel`;
`handleModelLoad` is a load callback, not a transition. -/
def accepted : Action → ViewerState → Bool
  | .next, s => !s.isLoading
  | .prev, s => !s.isLoading
  | .select i, s => !s.isLoading && i != s.currentModelIndex
  | .loaded, _ => false

/-- Run a sequence of actions from a state. -/
def run : List Action → ViewerState → ViewerState
  | [], s => s
  | a :: rest, s => run rest (step a s)

end Scene

namespace Part000

/-- The `models` array of `src/unnamed/part_000`, lines 7-33. -/
def models : List CatalogEntry :=
  [⟨"Laptop", "../laptop.glb", (0, 0.5, 0.5)⟩,
   ⟨"Drone", "../drone.glb", (0, 0.1, 0.3)⟩,
   ⟨"Headset", "../headset1.glb", (0, 0, 40)⟩,
   ⟨"Wooden Box", "../wooden_box.glb", (0, 2, 5)⟩,
   ⟨"VR", "../vr.glb", (0, 0, 2.5)⟩]

/-- The mount state of `Scene` in `src/unnamed/part_000`, lines 95-97. -/
def initialState : ViewerState :=
  ⟨0, true, 0⟩

/-- `handleModelLoad` (`src/unnamed/part_000`, lines 99-101). -/
def handleModelLoad (s : ViewerState) : ViewerState :=
  { s with isLoading := false }

/-- `nextModel` (`src/unnamed/part_000`, lines 103-109). -/
def nextModel (s : ViewerState) : ViewerState :=
  if !s.isLoading then
    { s with
      isLoading := true
      currentModelIndex := (s.currentModelIndex + 1).tmod (models.length : Int)
      key := s.key + 1 }
  else s

/-- `previousModel` (`src/unnamed/part_000`, lines 111-119). -/
def previousModel (s : ViewerState) : ViewerState :=
  if !s.isLoading then
    { s with
      isLoading := true
      currentModelIndex :=
        (s.currentModelIndex - 1 + (models.length : Int)).tmod (models.length : Int)
      key := s.key + 1 }
  else s

/-- `selectModel` (`src/unnamed/part_000`, lines 121-127). -/
def selectModel (index : Int) (s : ViewerState) : ViewerState :=
  if !s.isLoading && index != s.currentModelIndex then
    { s with
      isLoading := true
      currentModelIndex := index
      key := s.key + 1 }
  else s

end Part000

theorem Scene.models_length_int : (Scene.models.length : Int) = 5 := rfl

theorem Scene.step_preserves_range (a : Scene.Action) (s : ViewerState)
    (hs : 0 ≤ s.activeIndex ∧ s.activeIndex < 5)
    (ha : ∀ i, a = Scene.Action.select i → 0 ≤ i ∧ i < 5) :
    0 ≤ (Scene.step a s).activeIndex ∧ (Scene.step a s).activeIndex < 5 := by
  obtain ⟨h0, h5⟩ := hs
  cases a with
  | next =>
    simp only [Scene.step, Scene.nextModel, Scene.models_length_int, ViewerState.activeIndex] at *
    split
    · refine ⟨Int.tmod_nonneg _ (by omega), Int.tmod_lt_of_pos _ (by norm_num)⟩
    · exact ⟨h0, h5⟩
  | prev =>
    simp only [Scene.step, Scene.previousModel, Scene.models_length_int,
      ViewerState.activeIndex] at *
    split
    · refine ⟨Int.tmod_nonneg _ (by omega), Int.tmod_lt_of_pos _ (by norm_num)⟩
    · exact ⟨h0, h5⟩
  | select i =>
    simp only [Scene.step, Scene.selectModel, ViewerState.activeIndex] at *
    split
    · exact ha i rfl
    · exact ⟨h0, h5⟩
  | loaded =>
    simp only [Scene.step, Scene.handleModelLoad, ViewerState.activeIndex] at *
    exact ⟨h0, h5⟩

/-- Claim C1 counterexample: from the mount state, `notifyAssetLoaded`
followed by `selectIndex 7` (an out-of-range index) yields
`activeIndex = 7`, outside `[0, catalogLength)` — `selectModel` has no
range check, so out-of-range `selectIndex` DOES make `activeIndex`
invalid. -/
theorem C1_counterexample :
    (Scene.run [Scene.Action.loaded, Scene.Action.select 7]
        Scene.initialState).activeIndex = 7 ∧
    ¬ (0 ≤ (Scene.run [Scene.Action.loaded, Scene.Action.select 7]
          Scene.initialState).activeIndex ∧
       (Scene.run [Scene.Action.loaded, Scene.Action.select 7]
          Scene.initialState).activeIndex < (Scene.models.length : Int)) := by
  decide

/-- Claim C1 (amended): if every `selectIndex` call in the sequence uses
an in-range argument, then every state reachable from the mount state has
`activeIndex` in `[0, catalogLength)`. -/
theorem C1_activeIndex_in_range (l : List Scene.Action)
    (h : ∀ i, Scene.Action.select i ∈ l → 0 ≤ i ∧ i < (Scene.models.length : Int)) :
    0 ≤ (Scene.run l Scene.initialState).activeIndex ∧
    (Scene.run l Scene.initialState).activeIndex < (Scene.models.length : Int) := by
  rw [Scene.models_length_int] at *
  suffices H : ∀ (l : List Scene.Action) (s : ViewerState),
      (∀ i, Scene.Action.select i ∈ l → 0 ≤ i ∧ i < 5) →
      0 ≤ s.activeIndex ∧ s.activeIndex < 5 →
      0 ≤ (Scene.run l s).activeIndex ∧ (Scene.run l s).activeIndex < 5 by
    exact H l Scene.initialState h (by decide)
  intro l
  induction l with
  | nil => intro s _ hs; exact hs
  | cons a rest ih =>
    intro s hl hs
    refine ih (Scene.step a s) (fun i hi => hl i (List.mem_cons_of_mem a hi)) ?_
    exact Scene.step_preserves_range a s hs
      (fun i hi => hl i (hi ▸ List.mem_cons_self a rest))

/-- Claim C1 witness: a concrete in-range action sequence from the mount
state ends with a valid `activeIndex`. -/
theorem C1_witness :
    0 ≤ (Scene.run [Scene.Action.loaded, Scene.Action.next, Scene.Action.select 3]
        Scene.initialState).activeIndex ∧
    (Scene.run [Scene.Action.loaded, Scene.Action.next, Scene.Action.select 3]
        Scene.initialState).activeIndex < (Scene.models.length : Int) := by
  refine C1_activeIndex_in_range _ ?_
  intro i hi
  simp only [List.mem_cons, List.not_mem_nil, or_false] at hi
  rcases hi with h | h | h
  · exact absurd h (by simp)
  · exact absurd h (by simp)
  · cases h; decide

/-- Claim C2: with `isAssetReady` true, `selectNext` advances
`activeIndex` to `(activeIndex + 1) mod catalogLength` (JavaScript's
truncated remainder), clears `isAssetReady` and increments `generation`;
with `isAssetReady` false it leaves the state unchanged. -/
theorem C2_selectNext_spec (s : ViewerState) :
    (s.isAssetReady = true →
      (Scene.selectNext s).activeIndex =
          (s.activeIndex + 1).tmod (Scene.models.length : Int) ∧
      (Scene.selectNext s).isAssetReady = false ∧
      (Scene.selectNext s).generation = s.generation + 1) ∧
    (s.isAssetReady = false → Scene.selectNext s = s) := by
  constructor
  · intro h
    simp only [ViewerState.isAssetReady, Bool.not_eq_true'] at h
    simp [Scene.selectNext, Scene.nextModel, h, ViewerState.activeIndex,
      ViewerState.isAssetReady, ViewerState.generation]
  · intro h
    simp only [ViewerState.isAssetReady, Bool.not_eq_false'] at h
    simp [Scene.selectNext, Scene.nextModel, h]

/-- Claim C2 witness: `selectNext` on the ready state `(2, ready, 7)`
gives `(3, not ready, 8)`, and on the not-ready state `(2, loading, 7)`
is the identity. -/
theorem C2_witness :
    ((Scene.selectNext ⟨2, false, 7⟩).activeIndex =
        ((2 : Int) + 1).tmod (Scene.models.length : Int) ∧
     (Scene.selectNext ⟨2, false, 7⟩).isAssetReady = false ∧
     (Scene.selectNext ⟨2, false, 7⟩).generation = 7 + 1) ∧
    Scene.selectNext ⟨2, true, 7⟩ = ⟨2, true, 7⟩ :=
  ⟨(C2_selectNext_spec ⟨2, false, 7⟩).1 rfl,
   (C2_selectNext_spec ⟨2, true, 7⟩).2 rfl⟩

/-- Claim C3: `selectIndex i` is the identity exactly when `isAssetReady`
is false or `i` equals `activeIndex`; otherwise it sets `activeIndex` to
`i`, sets `isLoading` (so `isAssetReady` becomes false) and increments
`generation`.  The structure fields on the right are
`(currentModelIndex, isLoading, key)`. -/
theorem C3_selectIndex_spec (i : Int) (s : ViewerState) :
    Scene.selectIndex i s =
      if s.isAssetReady = false ∨ i = s.activeIndex then s
      else ⟨i, true, s.generation + 1⟩ := by
  simp only [Scene.selectIndex, Scene.selectModel, ViewerState.isAssetReady,
    ViewerState.activeIndex, ViewerState.generation, Bool.not_eq_false',
    Bool.and_eq_true, Bool.not_eq_true', bne_iff_ne, ne_eq]
  by_cases hl : s.isLoading
  · simp [hl]
  · by_cases hi : i = s.currentModelIndex
    · simp [hl, hi]
    · simp [hl, hi]

/-- Claim C4: every transition action invoked while `isAssetReady` is
false leaves the whole state unchanged. -/
theorem C4_noop_while_loading (s : ViewerState) (i : Int)
    (h : s.isAssetReady = false) :
    Scene.selectNext s = s ∧ Scene.selectPrevious s = s ∧
    Scene.selectIndex i s = s := by
  simp only [ViewerState.isAssetReady, Bool.not_eq_false'] at h
  refine ⟨?_, ?_, ?_⟩
  · simp [Scene.selectNext, Scene.nextModel, h]
  · simp [Scene.selectPrevious, Scene.previousModel, h]
  · simp [Scene.selectIndex, Scene.selectModel, h]

/-- Claim C4 witness: at the loading state `(0, loading, 0)` all three
transitions (with sample index 9) are identities. -/
theorem C4_witness :
    Scene.selectNext ⟨0, true, 0⟩ = ⟨0, true, 0⟩ ∧
    Scene.selectPrevious ⟨0, true, 0⟩ = ⟨0, true, 0⟩ ∧
    Scene.selectIndex 9 ⟨0, true, 0⟩ = ⟨0, true, 0⟩ :=
  C4_noop_while_loading ⟨0, true, 0⟩ 9 rfl

theorem Scene.step_generation (a : Scene.Action) (s : ViewerState) :
    (Scene.step a s).generation =
      if Scene.accepted a s then s.generation + 1 else s.generation := by
  cases a with
  | next =>
    simp only [Scene.step, Scene.accepted, Scene.nextModel, ViewerState.generation]
    split <;> simp_all
  | prev =>
    simp only [Scene.step, Scene.accepted, Scene.previousModel, ViewerState.generation]
    split <;> simp_all
  | select i =>
    simp only [Scene.step, Scene.accepted, Scene.selectModel, ViewerState.generation]
    split <;> simp_all
  | loaded =>
    simp [Scene.step, Scene.accepted, Scene.handleModelLoad, ViewerState.generation]

/-- Claim C5: `generation` grows by exactly one on every accepted
transition, is unchanged on rejected calls and on `notifyAssetLoaded`
(never an accepted transition), and is monotonically non-decreasing along
every action sequence. -/
theorem C5_generation_monotone (a : Scene.Action) (s : ViewerState)
    (l : List Scene.Action) :
    ((Scene.step a s).generation =
      if Scene.accepted a s then s.generation + 1 else s.generation) ∧
    Scene.accepted Scene.Action.loaded s = false ∧
    s.generation ≤ (Scene.run l s).generation := by
  refine ⟨Scene.step_generation a s, rfl, ?_⟩
  induction l generalizing s with
  | nil => exact le_refl _
  | cons b rest ih =>
    refine le_trans ?_ (ih (Scene.step b s))
    rw [Scene.step_generation b s]
    split <;> omega

/-- Claim C6: from a ready state with valid `activeIndex`, `selectNext`
then `notifyAssetLoaded` then `selectPrevious` restores `activeIndex`;
`selectPrevious` computes `(activeIndex - 1 + catalogLength) mod
catalogLength`, so from `activeIndex = 0` it yields `catalogLength - 1`. -/
theorem C6_next_prev_inverse (s : ViewerState) (hr : s.isAssetReady = true)
    (h0 : 0 ≤ s.activeIndex)
    (h5 : s.activeIndex < (Scene.models.length : Int)) :
    (Scene.selectPrevious (Scene.notifyAssetLoaded
        (Scene.selectNext s))).activeIndex = s.activeIndex ∧
    (Scene.selectPrevious s).activeIndex =
      (s.activeIndex - 1 + (Scene.models.length : Int)).tmod
        (Scene.models.length : Int) ∧
    (s.activeIndex = 0 →
      (Scene.selectPrevious s).activeIndex = (Scene.models.length : Int) - 1) := by
  rw [Scene.models_length_int] at *
  simp only [ViewerState.isAssetReady, Bool.not_eq_true'] at hr
  simp only [ViewerState.activeIndex] at *
  simp only [Scene.selectNext, Scene.nextModel, Scene.notifyAssetLoaded,
    Scene.handleModelLoad, Scene.selectPrevious, Scene.previousModel, hr,
    Scene.models_length_int, Bool.not_false, if_pos, Bool.not_true,
    Bool.false_eq_true, if_false]
  refine ⟨?_, ?_, ?_⟩
  · have h1 : (s.currentModelIndex + 1).tmod 5 = (s.currentModelIndex + 1) % 5 :=
      Int.tmod_eq_emod (by omega) (by omega)
    rw [h1, Int.tmod_eq_emod (by omega) (by omega)]
    omega
  · trivial
  · intro h
    rw [h]
    decide

/-- Claim C6 witness: at the ready state `(0, ready, 0)` the
next-load-previous round trip restores `activeIndex = 0`, and
`selectPrevious` alone wraps to `4 = catalogLength - 1`. -/
theorem C6_witness :
    (Scene.selectPrevious (Scene.notifyAssetLoaded
        (Scene.selectNext ⟨0, false, 0⟩))).activeIndex = (0 : Int) ∧
    (Scene.selectPrevious ⟨0, false, 0⟩).activeIndex =
      ((0 : Int) - 1 + (Scene.models.length : Int)).tmod
        (Scene.models.length : Int) ∧
    (Scene.selectPrevious ⟨0, false, 0⟩).activeIndex =
      (Scene.models.length : Int) - 1 := by
  have h := C6_next_prev_inverse ⟨0, false, 0⟩ rfl (by decide) (by decide)
  exact ⟨h.1, h.2.1, h.2.2 rfl⟩

/-- Claim C7 counterexample: `i = 1` is in range, yet from the mount
state (where `isAssetReady` is false) `selectIndex 1` is a no-op, so
`selectIndex 1` followed by `notifyAssetLoaded` leaves `activeIndex = 0`,
not `1`.  The claim fails for states with `isAssetReady` false. -/
theorem C7_counterexample :
    (0 ≤ (1 : Int) ∧ (1 : Int) < (Scene.models.length : Int)) ∧
    ¬ ((Scene.notifyAssetLoaded (Scene.selectIndex 1
          Scene.initialState)).isAssetReady = true ∧
       (Scene.notifyAssetLoaded (Scene.selectIndex 1
          Scene.initialState)).activeIndex = 1) := by
  decide

/-- Claim C7 (amended): for `i` in range and every state with
`isAssetReady` true, `selectIndex i` followed by `notifyAssetLoaded`
yields `isAssetReady = true` and `activeIndex = i`. -/
theorem C7_select_then_load (i : Int) (s : ViewerState)
    (hi : 0 ≤ i ∧ i < (Scene.models.length : Int))
    (hr : s.isAssetReady = true) :
    (Scene.notifyAssetLoaded (Scene.selectIndex i s)).isAssetReady = true ∧
    (Scene.notifyAssetLoaded (Scene.selectIndex i s)).activeIndex = i := by
  simp only [ViewerState.isAssetReady, Bool.not_eq_true'] at hr
  by_cases h : i = s.currentModelIndex
  · simp [Scene.selectIndex, Scene.selectModel, Scene.notifyAssetLoaded,
      Scene.handleModelLoad, h, ViewerState.isAssetReady, ViewerState.activeIndex]
  · simp [Scene.selectIndex, Scene.selectModel, Scene.notifyAssetLoaded,
      Scene.handleModelLoad, hr, h, ViewerState.isAssetReady, ViewerState.activeIndex]

/-- Claim C7 witness: from the ready state `(2, ready, 3)`, selecting
index `4` and then loading yields a ready state at index `4`. -/
theorem C7_witness :
    (Scene.notifyAssetLoaded (Scene.selectIndex 4
        ⟨2, false, 3⟩)).isAssetReady = true ∧
    (Scene.notifyAssetLoaded (Scene.selectIndex 4
        ⟨2, false, 3⟩)).activeIndex = 4 :=
  C7_select_then_load 4 ⟨2, false, 3⟩ (by decide) rfl

/-- Claim C8: `notifyAssetLoaded` sets `isAssetReady` to true, leaves
`activeIndex` and `generation` unchanged, and is idempotent. -/
theorem C8_notifyAssetLoaded_spec (s : ViewerState) :
    (Scene.notifyAssetLoaded s).isAssetReady = true ∧
    (Scene.notifyAssetLoaded s).activeIndex = s.activeIndex ∧
    (Scene.notifyAssetLoaded s).generation = s.generation ∧
    Scene.notifyAssetLoaded (Scene.notifyAssetLoaded s) =
      Scene.notifyAssetLoaded s := by
  refine ⟨?_, rfl, rfl, rfl⟩
  simp [Scene.notifyAssetLoaded, Scene.handleModelLoad, ViewerState.isAssetReady]

/-- Claim C9: the concrete scenario over the five-entry catalog, stated
as `(activeIndex, isAssetReady, generation)` triples after each prefix of
the sequence load, next, load, select 4, prev (a no-op while loading),
load, prev from the mount state `(0, false, 0)`. -/
theorem C9_concrete_scenario :
    ((Scene.run [Scene.Action.loaded] Scene.initialState).activeIndex,
     (Scene.run [Scene.Action.loaded] Scene.initialState).isAssetReady,
     (Scene.run [Scene.Action.loaded] Scene.initialState).generation) =
      (0, true, 0) ∧
    ((Scene.run [Scene.Action.loaded, Scene.Action.next]
        Scene.initialState).activeIndex,
     (Scene.run [Scene.Action.loaded, Scene.Action.next]
        Scene.initialState).isAssetReady,
     (Scene.run [Scene.Action.loaded, Scene.Action.next]
        Scene.initialState).generation) = (1, false, 1) ∧
    ((Scene.run [Scene.Action.loaded, Scene.Action.next, Scene.Action.loaded]
        Scene.initialState).activeIndex,
     (Scene.run [Scene.Action.loaded, Scene.Action.next, Scene.Action.loaded]
        Scene.initialState).isAssetReady,
     (Scene.run [Scene.Action.loaded, Scene.Action.next, Scene.Action.loaded]
        Scene.initialState).generation) = (1, true, 1) ∧
    ((Scene.run [Scene.Action.loaded, Scene.Action.next, Scene.Action.loaded,
        Scene.Action.select 4] Scene.initialState).activeIndex,
     (Scene.run [Scene.Action.loaded, Scene.Action.next, Scene.Action.loaded,
        Scene.Action.select 4] Scene.initialState).isAssetReady,
     (Scene.run [Scene.Action.loaded, Scene.Action.next, Scene.Action.loaded,
        Scene.Action.select 4] Scene.initialState).generation) = (4, false, 2) ∧
    ((Scene.run [Scene.Action.loaded, Scene.Action.next, Scene.Action.loaded,
        Scene.Action.select 4, Scene.Action.prev] Scene.initialState).activeIndex,
     (Scene.run [Scene.Action.loaded, Scene.Action.next, Scene.Action.loaded,
        Scene.Action.select 4, Scene.Action.prev] Scene.initialState).isAssetReady,
     (Scene.run [Scene.Action.loaded, Scene.Action.next, Scene.Action.loaded,
        Scene.Action.select 4, Scene.Action.prev] Scene.initialState).generation) =
      (4, false, 2) ∧
    ((Scene.run [Scene.Action.loaded, Scene.Action.next, Scene.Action.loaded,
        Scene.Action.select 4, Scene.Action.prev, Scene.Action.loaded]
        Scene.initialState).activeIndex,
     (Scene.run [Scene.Action.loaded, Scene.Action.next, Scene.Action.loaded,
        Scene.Action.select 4, Scene.Action.prev, Scene.Action.loaded]
        Scene.initialState).isAssetReady,
     (Scene.run [Scene.Action.loaded, Scene.Action.next, Scene.Action.loaded,
        Scene.Action.select 4, Scene.Action.prev, Scene.Action.loaded]
        Scene.initialState).generation) = (4, true, 2) ∧
    ((Scene.run [Scene.Action.loaded, Scene.Action.next, Scene.Action.loaded,
        Scene.Action.select 4, Scene.Action.prev, Scene.Action.loaded,
        Scene.Action.prev] Scene.initialState).activeIndex,
     (Scene.run [Scene.Action.loaded, Scene.Action.next, Scene.Action.loaded,
        Scene.Action.select 4, Scene.Action.prev, Scene.Action.loaded,
        Scene.Action.prev] Scene.initialState).isAssetReady,
     (Scene.run [Scene.Action.loaded, Scene.Action.next, Scene.Action.loaded,
        Scene.Action.select 4, Scene.Action.prev, Scene.Action.loaded,
        Scene.Action.prev] Scene.initialState).generation) = (3, false, 3) := by
  decide

/-- Claim C10: the two source files implement extensionally equal
controllers — identical catalogs, identical mount state, and pointwise
equal transition functions. -/
theorem C10_files_equivalent :
    Scene.models = Part000.models ∧
    Scene.initialState = Part000.initialState ∧
    (∀ s : ViewerState, Scene.nextModel s = Part000.nextModel s) ∧
    (∀ s : ViewerState, Scene.previousModel s = Part000.previousModel s) ∧
    (∀ (i : Int) (s : ViewerState),
      Scene.selectModel i s = Part000.selectModel i s) ∧
    (∀ s : ViewerState, Scene.handleModelLoad s = Part000.handleModelLoad s) :=
  ⟨rfl, rfl, fun _ => rfl, fun _ => rfl, fun _ _ => rfl, fun _ => rfl⟩
